import Mathlib

/-!
Shallow embedding of src/train_gpt-2.py (a GPT-2 training script).

Tensors over a feature axis are modelled as functions out of Fin; the scalar
field is ℚ.  The script computes with floating point numbers and library
implementations of exp, log, sqrt and the tanh-approximate GELU; those scalar
primitives are taken as parameters (a Prims record), so every theorem below
holds for every choice of them.  Batched torch operations that act
position-wise (Linear, LayerNorm over the last axis, elementwise GELU) are
embedded as maps over the batch and sequence indices.
-/

namespace TrainGPT2

/-- Scalar primitives supplied by the numeric library (torch): exponential,
logarithm, square root and the tanh-approximate GELU nonlinearity.  All model
computations are parametric in these. -/
structure Prims where
  exp : ℚ → ℚ
  log : ℚ → ℚ
  sqrt : ℚ → ℚ
  gelu : ℚ → ℚ

/-- Parameters of torch nn.Linear(inF, outF): weight of shape (outF, inF) and a
bias of shape (outF). -/
structure LinearParams (inF outF : ℕ) where
  weight : Fin outF → Fin inF → ℚ
  bias : Fin outF → ℚ

/-- y = x Wᵀ + b, the action of nn.Linear on one feature vector. -/
def linearFwd {inF outF : ℕ} (p : LinearParams inF outF) (x : Fin inF → ℚ) :
    Fin outF → ℚ :=
  fun o => (∑ i, p.weight o i * x i) + p.bias o

/-- Learned scale and shift of torch nn.LayerNorm(n). -/
structure LayerNorm (n : ℕ) where
  weight : Fin n → ℚ
  bias : Fin n → ℚ

/-- torch's default LayerNorm epsilon, 1e-5. -/
def layer_norm_eps : ℚ := 1 / 100000

/-- nn.LayerNorm over the last axis: normalize to mean 0 and (biased) variance
1, then apply the learned scale and shift. -/
def LayerNorm.forward (pr : Prims) {n : ℕ} (p : LayerNorm n) (v : Fin n → ℚ) :
    Fin n → ℚ :=
  let mean := (∑ i, v i) / (n : ℚ)
  let varB := (∑ i, (v i - mean) ^ 2) / (n : ℚ)
  fun i => p.weight i * ((v i - mean) / pr.sqrt (varB + layer_norm_eps)) + p.bias i

/-- GPTConfig (src lines 73-79).  The source stores n_embd and n_head and
asserts n_embd % n_head == 0 (line 12); we carry n_head and the per-head
width head_dim, so that n_embd = n_head * head_dim by construction. -/
structure GPTConfig where
  block_size : ℕ
  vocab_size : ℕ
  n_layer : ℕ
  n_head : ℕ
  head_dim : ℕ

/-- The embedding dimension, n_head * head_dim. -/
def GPTConfig.n_embd (c : GPTConfig) : ℕ := c.n_head * c.head_dim

/-- A batched activation tensor of shape (B, T, n). -/
abbrev BTTensor (B T n : ℕ) := Fin B → Fin T → Fin n → ℚ

/-- Index of the query slice of the packed qkv output:
torch.split(qkv, n_embd, dim=2) takes entries 0..E-1 for q. -/
def qSlice {E : ℕ} (e : Fin E) : Fin (3 * E) :=
  ⟨e.val, by have := e.isLt; omega⟩

/-- Index of the key slice (entries E..2E-1) of the packed qkv output. -/
def kSlice {E : ℕ} (e : Fin E) : Fin (3 * E) :=
  ⟨E + e.val, by have := e.isLt; omega⟩

/-- Index of the value slice (entries 2E..3E-1) of the packed qkv output. -/
def vSlice {E : ℕ} (e : Fin E) : Fin (3 * E) :=
  ⟨2 * E + e.val, by have := e.isLt; omega⟩

/-- Which head a flat feature index belongs to after
view(B, T, n_head, head_dim): head = e / head_dim. -/
def headOf {nh hd : ℕ} (e : Fin (nh * hd)) : Fin nh :=
  ⟨e.val / hd, by
    have he := e.isLt
    rcases Nat.eq_zero_or_pos hd with h0 | h0
    · subst h0; exact absurd he (by omega)
    · exact (Nat.div_lt_iff_lt_mul h0).mpr he⟩

/-- Position inside the head for a flat feature index: e % head_dim. -/
def dimOf {nh hd : ℕ} (e : Fin (nh * hd)) : Fin hd :=
  ⟨e.val % hd, by
    have he := e.isLt
    rcases Nat.eq_zero_or_pos hd with h0 | h0
    · subst h0; exact absurd he (by omega)
    · exact Nat.mod_lt _ h0⟩

/-- Flat feature index of coordinate d of head h. -/
def mergeHead {nh hd : ℕ} (h : Fin nh) (d : Fin hd) : Fin (nh * hd) :=
  ⟨h.val * hd + d.val, by
    have h1 := h.isLt
    have h2 := d.isLt
    calc h.val * hd + d.val < h.val * hd + hd := by omega
      _ = (h.val + 1) * hd := by ring
      _ ≤ nh * hd := Nat.mul_le_mul_right hd h1⟩

/-- F.scaled_dot_product_attention with is_causal=True for one batch element
and one head: scores q·k / sqrt(head_dim), keys strictly after the query
position masked out (weight 0, i.e. exp of -infinity), softmax over the
remaining keys, output the weighted sum of values. -/
def scaled_dot_product_attention {T hd : ℕ} (pr : Prims)
    (q k v : Fin T → Fin hd → ℚ) : Fin T → Fin hd → ℚ :=
  let w : Fin T → Fin T → ℚ := fun t s =>
    if s.val ≤ t.val then pr.exp ((∑ d, q t d * k s d) / pr.sqrt (hd : ℚ)) else 0
  let att : Fin T → Fin T → ℚ := fun t s => w t s / ∑ s2, w t s2
  fun t d => ∑ s, att t s * v s d

/-- Parameters of CausalSelfAttention (src lines 7-20): the packed
query/key/value projection c_attn and the output projection c_proj. -/
structure CausalSelfAttention (cfg : GPTConfig) where
  c_attn : LinearParams cfg.n_embd (3 * cfg.n_embd)
  c_proj : LinearParams cfg.n_embd cfg.n_embd

/-- CausalSelfAttention.forward (src lines 22-36), embedded statement by
statement.  Note line 35 of the source reads `y = self.c_proj(x)`: the
projection is applied to the input x, and the assembled attention output y2 is
discarded. -/
def CausalSelfAttention.forward {cfg : GPTConfig} (pr : Prims)
    (sa : CausalSelfAttention cfg) {B T : ℕ}
    (x : BTTensor B T cfg.n_embd) : BTTensor B T cfg.n_embd :=
  let qkv := fun b t => linearFwd sa.c_attn (x b t)
  let q := fun b t (e : Fin cfg.n_embd) => qkv b t (qSlice e)
  let k := fun b t (e : Fin cfg.n_embd) => qkv b t (kSlice e)
  let v := fun b t (e : Fin cfg.n_embd) => qkv b t (vSlice e)
  let qh := fun b (h : Fin cfg.n_head) t (d : Fin cfg.head_dim) => q b t (mergeHead h d)
  let kh := fun b (h : Fin cfg.n_head) t (d : Fin cfg.head_dim) => k b t (mergeHead h d)
  let vh := fun b (h : Fin cfg.n_head) t (d : Fin cfg.head_dim) => v b t (mergeHead h d)
  let y := fun b h => scaled_dot_product_attention pr (qh b h) (kh b h) (vh b h)
  let y2 := fun b t (e : Fin cfg.n_embd) => y b (headOf e) t (dimOf e)
  fun b t => linearFwd sa.c_proj (x b t)

/-- Parameters of MLP (src lines 38-46). -/
structure MLP (cfg : GPTConfig) where
  c_fc : LinearParams cfg.n_embd (4 * cfg.n_embd)
  c_proj : LinearParams (4 * cfg.n_embd) cfg.n_embd

/-- MLP.forward (src lines 48-53): up-projection, tanh-GELU, down-projection,
all position-wise. -/
def MLP.forward {cfg : GPTConfig} (pr : Prims) (m : MLP cfg) {B T : ℕ}
    (x : BTTensor B T cfg.n_embd) : BTTensor B T cfg.n_embd :=
  let x1 := fun b t => linearFwd m.c_fc (x b t)
  let x2 := fun b t j => pr.gelu (x1 b t j)
  fun b t => linearFwd m.c_proj (x2 b t)

/-- Parameters of Block (src lines 56-65). -/
structure Block (cfg : GPTConfig) where
  ln_1 : LayerNorm cfg.n_embd
  attn : CausalSelfAttention cfg
  ln_2 : LayerNorm cfg.n_embd
  mlp : MLP cfg

/-- Block.forward (src lines 67-70):
x = x + attn(ln_1(x)); x = x + mlp(ln_2(x)). -/
def Block.forward {cfg : GPTConfig} (pr : Prims) (blk : Block cfg) {B T : ℕ}
    (x : BTTensor B T cfg.n_embd) : BTTensor B T cfg.n_embd :=
  let x1 := fun b t e =>
    x b t e +
      CausalSelfAttention.forward pr blk.attn
        (fun b2 t2 => LayerNorm.forward pr blk.ln_1 (x b2 t2)) b t e
  fun b t e =>
    x1 b t e +
      MLP.forward pr blk.mlp
        (fun b2 t2 => LayerNorm.forward pr blk.ln_2 (x1 b2 t2)) b t e

/-- Parameters of GPT (src lines 84-97): token and positional embedding
tables, the list of blocks, the final LayerNorm and the language-model head. -/
structure GPT (cfg : GPTConfig) where
  wte : Fin cfg.vocab_size → Fin cfg.n_embd → ℚ
  wpe : Fin cfg.block_size → Fin cfg.n_embd → ℚ
  h : List (Block cfg)
  ln_f : LayerNorm cfg.n_embd
  lm_head : LinearParams cfg.n_embd cfg.vocab_size

/-- Per-sample cross entropy of F.cross_entropy: -log softmax(z)[y], i.e.
log (sum of exp of the logits) minus the logit of the true class. -/
def crossEntropy1 (pr : Prims) {V : ℕ} (z : Fin V → ℚ) (y : Fin V) : ℚ :=
  pr.log (∑ j, pr.exp (z j)) - z y

/-- F.cross_entropy with the default mean reduction over N samples. -/
def cross_entropy (pr : Prims) {N V : ℕ} (z : Fin N → Fin V → ℚ)
    (y : Fin N → Fin V) : ℚ :=
  (∑ i, crossEntropy1 pr (z i) (y i)) / (N : ℚ)

/-- Row-major flattening of a (B, T) indexed family, as done by
view(-1, ...) on a contiguous (B, T, ...) tensor: flat index i maps to
batch i / T, position i % T. -/
def flattenBT {α : Type} {B T : ℕ} (f : Fin B → Fin T → α) : Fin (B * T) → α :=
  fun i =>
    f ⟨i.val / T, by
        have hi := i.isLt
        rcases Nat.eq_zero_or_pos T with h0 | h0
        · subst h0; exact absurd hi (by omega)
        · exact (Nat.div_lt_iff_lt_mul h0).mpr hi⟩
      ⟨i.val % T, by
        have hi := i.isLt
        rcases Nat.eq_zero_or_pos T with h0 | h0
        · subst h0; exact absurd hi (by omega)
        · exact Nat.mod_lt _ h0⟩

/-- GPT.forward after the sequence-length assertion (src lines 116-130):
sum of positional and token embeddings, the blocks in order, the final
LayerNorm, the lm_head projection, and optionally the mean cross entropy of
the flattened logits against the flattened targets. -/
def GPT.forwardCore {cfg : GPTConfig} (pr : Prims) (g : GPT cfg) {B T : ℕ}
    (hT : T < cfg.block_size) (idx : Fin B → Fin T → Fin cfg.vocab_size)
    (targets : Option (Fin B → Fin T → Fin cfg.vocab_size)) :
    (Fin B → Fin T → Fin cfg.vocab_size → ℚ) × Option ℚ :=
  let pos_embd := fun (t : Fin T) => g.wpe ⟨t.val, Nat.lt_trans t.isLt hT⟩
  let tok_embd := fun b t => g.wte (idx b t)
  let x0 : BTTensor B T cfg.n_embd := fun b t e => pos_embd t e + tok_embd b t e
  let xb := g.h.foldl (fun acc blk => Block.forward pr blk acc) x0
  let xf := fun b t => LayerNorm.forward pr g.ln_f (xb b t)
  let logits := fun b t => linearFwd g.lm_head (xf b t)
  let loss := Option.map
    (fun tg => cross_entropy pr (flattenBT logits) (flattenBT tg)) targets
  (logits, loss)

/-- GPT.forward (src lines 113-130) including the assertion on line 115:
sequences of length at least block_size fail with the assertion message, all
shorter sequences are processed by forwardCore. -/
def GPT.forward {cfg : GPTConfig} (pr : Prims) (g : GPT cfg) {B T : ℕ}
    (idx : Fin B → Fin T → Fin cfg.vocab_size)
    (targets : Option (Fin B → Fin T → Fin cfg.vocab_size)) :
    Except String ((Fin B → Fin T → Fin cfg.vocab_size → ℚ) × Option ℚ) :=
  if hT : T < cfg.block_size then
    .ok (GPT.forwardCore pr g hT idx targets)
  else
    .error ("Cannot forward sequence of length " ++ toString T ++
      ", block size is only " ++ toString cfg.block_size)

/-- The attention forward that §4.1 of the design document describes: identical
to CausalSelfAttention.forward except that the final output projection is
applied to the assembled per-head attention output y2 rather than to the
input x.  This definition follows the spec's words and exists only to be
compared with the embedding of the source. -/
def CausalSelfAttention.specForward {cfg : GPTConfig} (pr : Prims)
    (sa : CausalSelfAttention cfg) {B T : ℕ}
    (x : BTTensor B T cfg.n_embd) : BTTensor B T cfg.n_embd :=
  let qkv := fun b t => linearFwd sa.c_attn (x b t)
  let q := fun b t (e : Fin cfg.n_embd) => qkv b t (qSlice e)
  let k := fun b t (e : Fin cfg.n_embd) => qkv b t (kSlice e)
  let v := fun b t (e : Fin cfg.n_embd) => qkv b t (vSlice e)
  let qh := fun b (h : Fin cfg.n_head) t (d : Fin cfg.head_dim) => q b t (mergeHead h d)
  let kh := fun b (h : Fin cfg.n_head) t (d : Fin cfg.head_dim) => k b t (mergeHead h d)
  let vh := fun b (h : Fin cfg.n_head) t (d : Fin cfg.head_dim) => v b t (mergeHead h d)
  let y := fun b h => scaled_dot_product_attention pr (qh b h) (kh b h) (vh b h)
  let y2 := fun b t (e : Fin cfg.n_embd) => y b (headOf e) t (dimOf e)
  fun b t => linearFwd sa.c_proj (y2 b t)

/-!  ## Checkpoint import (GPT.from_pretrained, src lines 133-180)

The state dicts of the local and the foreign model are modelled as stores
mapping parameter names to shaped tensors; tensor entries are kept in
row-major order.  -/

/-- A named checkpoint tensor: a shape and row-major entries. -/
structure STensor where
  shape : List ℕ
  data : List ℚ
deriving DecidableEq

/-- torch Tensor.t for a 2-D tensor of shape (m, n): the (n, m) tensor whose
row-major entry at flat index a (row a / m, column a % m) is the source entry
at row a % m, column a / m.  The source only applies .t() to 2-D weights; on
any other rank this model returns its argument unchanged. -/
def STensor.t (x : STensor) : STensor :=
  match x.shape with
  | [m, n] => ⟨[n, m], (List.range (n * m)).map (fun a => x.data.getD ((a % m) * n + a / m) 0)⟩
  | _ => x

/-- torch Tensor.copy_: overwrite the destination's values with the source's
values; the destination keeps its own shape (the source asserts the shapes
agree before every copy). -/
def copyInto (dst src : STensor) : STensor := ⟨dst.shape, src.data⟩

/-- A state dict: parameter name to tensor. -/
abbrev Store := String → STensor

/-- Overwrite one named parameter of a store. -/
def setParam (st : Store) (k : String) (v : STensor) : Store :=
  fun k2 => if k2 = k then v else st k2

/-- Python str.endswith, on strings viewed as character sequences. -/
def endsWithKey (k w : String) : Bool := w.data.isSuffixOf k.data

/-- The list `transposed` of src line 164: suffixes of the four parameter
names that the foreign library stores in transposed orientation. -/
def transposedList : List String :=
  ["attn.c_attn.weight", "attn.c_proj.weight", "mlp.c_fc.weight", "mlp.c_proj.weight"]

/-- any(k.endswith(w) for w in transposed) (src line 169). -/
def isTransposedKey (k : String) : Bool :=
  transposedList.any (fun w => endsWithKey k w)

/-- One iteration of the copy loop (src lines 168-178) on key k: verify the
shape condition (reversed foreign shape for transposed keys, exact equality
otherwise) and copy (the transpose of) the foreign tensor in place; a failed
verification is an assertion failure, modelled as none. -/
def checkAndCopy (sd_hf : Store) (k : String) (st : Store) : Option Store :=
  if isTransposedKey k then
    if (sd_hf k).shape.reverse = (st k).shape then
      some (setParam st k (copyInto (st k) ((sd_hf k).t)))
    else none
  else
    if (sd_hf k).shape = (st k).shape then
      some (setParam st k (copyInto (st k) (sd_hf k)))
    else none

/-- The copy loop over the foreign keys.  The result pairs the final store
with the failing key, if any: a shape assertion at key k aborts the loop,
leaving the store as it was at that moment. -/
def copyLoop (sd_hf : Store) : List String → Store → Store × Option String
  | [], st => (st, none)
  | k :: ks, st =>
    match checkAndCopy sd_hf k st with
    | some st2 => copyLoop sd_hf ks st2
    | none => (st, some k)

/-- src line 154: drop local keys ending in .attn.bias (a buffer, not a
parameter). -/
def filterLocalKeys (ks : List String) : List String :=
  ks.filter (fun k => !endsWithKey k (".attn.bias"))

/-- src lines 162-163: drop foreign keys ending in .attn.masked_bias or
.attn.bias. -/
def filterHfKeys (ks : List String) : List String :=
  (ks.filter (fun k => !endsWithKey k (".attn.masked_bias"))).filter
    (fun k => !endsWithKey k (".attn.bias"))

/-- The message of the count assertion on src line 167. -/
def countMismatchMsg (a b : ℕ) : String :=
  "mismatched keys: " ++ toString a ++ " != " ++ toString b

/-- The key-filtering, count check and copy loop of GPT.from_pretrained
(src lines 152-178), parametric in the two models' key lists and state dicts.
The result pairs the final local store with the error, if any. -/
def from_pretrained_copy (localKeys hfKeys : List String) (sd sd_hf : Store) :
    Store × Option String :=
  if (filterHfKeys hfKeys).length = (filterLocalKeys localKeys).length then
    copyLoop sd_hf (filterHfKeys hfKeys) sd
  else
    (sd, some (countMismatchMsg (filterHfKeys hfKeys).length (filterLocalKeys localKeys).length))

/-!  ## Weight tying (GPT.__init__, src lines 88-97)

Python parameter tensors are heap objects; attribute assignment rebinds a
reference.  Construction is modelled by allocating distinct heap ids for the
freshly created wte, wpe and lm_head weights (block parameters are omitted:
the tying involves none of them) and then performing the rebinding of line 97,
`self.transformer.wte.weight = self.lm_head.weight`.  -/

/-- The references a GPT instance holds to the heap ids of its wte weight,
its wpe weight and its lm_head weight. -/
structure GPTRefs where
  wteWeight : ℕ
  wpeWeight : ℕ
  lmHeadWeight : ℕ

/-- Construction before line 97: three freshly allocated, pairwise distinct
tensors. -/
def gptAllocRefs : GPTRefs :=
  { wteWeight := 0, wpeWeight := 1, lmHeadWeight := 2 }

/-- Line 97: rebind the wte.weight attribute to the lm_head.weight tensor. -/
def tieWeights (r : GPTRefs) : GPTRefs :=
  { r with wteWeight := r.lmHeadWeight }

/-- The references held after GPT.__init__ finishes. -/
def gptInitRefs : GPTRefs := tieWeights gptAllocRefs

/-- An in-place update of the heap object with id i. -/
def updateAt {α : Type} (heap : ℕ → α) (i : ℕ) (f : α → α) : ℕ → α :=
  fun j => if j = i then f (heap j) else heap j

/-- The token-embedding table as seen through the model's wte reference. -/
def wteView {α : Type} (r : GPTRefs) (heap : ℕ → α) : α := heap r.wteWeight

/-- The output-projection weight as seen through the model's lm_head
reference. -/
def lmHeadView {α : Type} (r : GPTRefs) (heap : ℕ → α) : α := heap r.lmHeadWeight

/-!  ## Initialization policy (GPT._init_weights, src lines 102-111)  -/

/-- The linear submodules of the model, by role. -/
inductive LinearRole
  | c_attn
  | attn_c_proj
  | c_fc
  | mlp_c_proj
  | lm_head
deriving DecidableEq

/-- Which linear layers carry the NANOGPT_SCALE_INIT attribute: it is set on
the attention output projection (src line 17) and on the feed-forward
down-projection (src line 46), and nowhere else. -/
def hasScaleInitAttr : LinearRole → Bool
  | .attn_c_proj => true
  | .mlp_c_proj => true
  | _ => false

/-- A submodule of the model as seen by the dispatch in _init_weights. -/
inductive ModuleKind
  | linear (r : LinearRole)
  | embeddingTable
  | layerNormModule
deriving DecidableEq

/-- What _init_weights does to one module: draw the weight from a normal
distribution with the given mean and standard deviation (and zero the bias,
for a linear layer), or leave the module untouched. -/
inductive InitAction
  | linearInit (mean std : ℝ) (biasZeroed : Bool)
  | embeddingInit (mean std : ℝ)
  | untouched

/-- GPT._init_weights (src lines 102-111): linear layers get std 0.02,
multiplied by (2 * n_layer) ** (-0.5) when the module carries the
NANOGPT_SCALE_INIT attribute; linear biases are zeroed; embeddings get
mean 0, std 0.02; anything else (LayerNorm) is untouched. -/
noncomputable def init_weights (c : GPTConfig) : ModuleKind → InitAction
  | .linear r =>
      .linearInit 0
        (if hasScaleInitAttr r then
          (0.02 : ℝ) * (2 * (c.n_layer : ℝ)) ^ (-(1 / 2) : ℝ)
        else (0.02 : ℝ)) true
  | .embeddingTable => .embeddingInit 0 0.02
  | .layerNormModule => .untouched

/-- The modules of a GPT instance that self.apply visits, in construction
order: wte, wpe, then per block ln_1, c_attn, c_proj, ln_2, c_fc, c_proj,
then ln_f and lm_head. -/
def gptModules (c : GPTConfig) : List ModuleKind :=
  [.embeddingTable, .embeddingTable] ++
  (List.range c.n_layer).flatMap (fun _ =>
    [.layerNormModule, .linear .c_attn, .linear .attn_c_proj,
     .layerNormModule, .linear .c_fc, .linear .mlp_c_proj]) ++
  [.layerNormModule, .linear .lm_head]

/-- The initialization policy as §4.5 of the design document words it: every
linear weight is N(0, 0.02) except the attention output projection and the
feed-forward down-projection, whose std is 0.02 * (2 * n_layer)^(-0.5);
linear biases are zeroed; embedding tables are N(0, 0.02).  This definition
follows the spec's words, to be compared with init_weights. -/
noncomputable def specInitAction (c : GPTConfig) : ModuleKind → InitAction
  | .linear r =>
      .linearInit 0
        (if r = .attn_c_proj ∨ r = .mlp_c_proj then
          (0.02 : ℝ) * (2 * (c.n_layer : ℝ)) ^ (-(1 / 2) : ℝ)
        else (0.02 : ℝ)) true
  | .embeddingTable => .embeddingInit 0 0.02
  | .layerNormModule => .untouched

def mlpPoint {cfg : GPTConfig} (pr : Prims) (m : MLP cfg) (v : Fin cfg.n_embd → ℚ) :
    Fin cfg.n_embd → ℚ :=
  linearFwd m.c_proj (fun j => pr.gelu (linearFwd m.c_fc v j))

def blockPoint {cfg : GPTConfig} (pr : Prims) (blk : Block cfg) (v : Fin cfg.n_embd → ℚ) :
    Fin cfg.n_embd → ℚ :=
  let v1 := fun e => v e + linearFwd blk.attn.c_proj (LayerNorm.forward pr blk.ln_1 v) e
  fun e => v1 e + mlpPoint pr blk.mlp (LayerNorm.forward pr blk.ln_2 v1) e

def finPair (B T : ℕ) (hT : 0 < T) : Fin B × Fin T ≃ Fin (B * T) where
  toFun bt := ⟨bt.1.val * T + bt.2.val, by
    have h1 := bt.1.isLt
    have h2 := bt.2.isLt
    calc bt.1.val * T + bt.2.val < bt.1.val * T + T := by omega
      _ = (bt.1.val + 1) * T := by ring
      _ ≤ B * T := Nat.mul_le_mul_right T h1⟩
  invFun i := (⟨i.val / T, (Nat.div_lt_iff_lt_mul hT).mpr i.isLt⟩,
               ⟨i.val % T, Nat.mod_lt _ hT⟩)
  left_inv := by
    rintro ⟨b, t⟩
    have hd : (b.val * T + t.val) / T = b.val := by
      rw [Nat.add_comm, Nat.mul_comm, Nat.add_mul_div_left _ _ hT,
        Nat.div_eq_of_lt t.isLt, Nat.zero_add]
    have hm : (b.val * T + t.val) % T = t.val := by
      rw [Nat.add_comm, Nat.mul_comm, Nat.add_mul_mod_self_left,
        Nat.mod_eq_of_lt t.isLt]
    simp only [Prod.mk.injEq]
    exact ⟨Fin.ext hd, Fin.ext hm⟩
  right_inv := by
    intro i
    apply Fin.ext
    show i.val / T * T + i.val % T = i.val
    rw [Nat.mul_comm]
    exact Nat.div_add_mod _ _

def shapeOk (sd_hf st : Store) (k : String) : Bool :=
  if isTransposedKey k then decide ((sd_hf k).shape.reverse = (st k).shape)
  else decide ((sd_hf k).shape = (st k).shape)

def expectedCopy (sd_hf st : Store) (k : String) : STensor :=
  if isTransposedKey k then copyInto (st k) ((sd_hf k).t) else copyInto (st k) (sd_hf k)

def SameButCAttn {cfg : GPTConfig} (p p2 : GPT cfg) : Prop :=
  p2.wte = p.wte ∧ p2.wpe = p.wpe ∧ p2.ln_f = p.ln_f ∧ p2.lm_head = p.lm_head ∧
  List.Forall₂ (fun b b2 : Block cfg =>
    b2.ln_1 = b.ln_1 ∧ b2.ln_2 = b.ln_2 ∧ b2.mlp = b.mlp ∧ b2.attn.c_proj = b.attn.c_proj)
    p.h p2.h

def prW1 : Prims := ⟨fun _ => 1, fun _ => 1, fun _ => 1, fun _ => 1⟩

def cfgW1 : GPTConfig := ⟨1, 1, 1, 1, 1⟩

def csaW1 : CausalSelfAttention cfgW1 :=
  ⟨⟨fun o _ => if o.val = 2 then 2 else 1, fun _ => 0⟩, ⟨fun _ _ => 1, fun _ => 0⟩⟩

def xW1 : BTTensor 1 1 cfgW1.n_embd := fun _ _ _ => 1

def keyWA : String := "wa"

def keyWB : String := "wb"

def keyWC : String := "wc"

def keyTA : String := "attn.c_attn.weight"

def c2sd : Store := fun k =>
  if k = keyWA then ⟨[1], [0]⟩ else if k = keyWB then ⟨[1], [0]⟩ else ⟨[], []⟩

def c2hf : Store := fun k =>
  if k = keyWA then ⟨[1], [5]⟩ else if k = keyWB then ⟨[2], [7, 8]⟩ else ⟨[], []⟩

def c2keys : List String := [keyWA, keyWB]

def c6sd : Store := fun k =>
  if k = keyTA then ⟨[2, 1], [0, 0]⟩ else if k = keyWA then ⟨[1], [0]⟩ else ⟨[], []⟩

def c6hf : Store := fun k =>
  if k = keyTA then ⟨[1, 2], [7, 8]⟩ else if k = keyWA then ⟨[1], [9]⟩ else ⟨[], []⟩

def c6keys : List String := [keyTA, keyWA]

def cfgW3 : GPTConfig := ⟨4, 2, 1, 1, 1⟩

def gW3 : GPT cfgW3 :=
  ⟨fun _ _ => 0, fun _ _ => 0, [], ⟨fun _ => 1, fun _ => 0⟩, ⟨fun _ _ => 0, fun _ => 0⟩⟩

def idxW3a : Fin 1 → Fin 2 → Fin cfgW3.vocab_size := fun _ _ => ⟨0, by decide⟩

def idxW3b : Fin 1 → Fin 2 → Fin cfgW3.vocab_size :=
  fun _ i => if i.val = 0 then ⟨0, by decide⟩ else ⟨1, by decide⟩

def cfgW5 : GPTConfig := ⟨3, 1, 0, 1, 1⟩

def gW5 : GPT cfgW5 :=
  ⟨fun _ _ => 0, fun _ _ => 0, [], ⟨fun _ => 1, fun _ => 0⟩, ⟨fun _ _ => 0, fun _ => 0⟩⟩

def idxW5long : Fin 1 → Fin 5 → Fin cfgW5.vocab_size := fun _ _ => ⟨0, by decide⟩

def idxW5short : Fin 1 → Fin 1 → Fin cfgW5.vocab_size := fun _ _ => ⟨0, by decide⟩

def cfgW7 : GPTConfig := ⟨1024, 50257, 1, 12, 64⟩

def tgtW8 : Fin 1 → Fin 2 → Fin cfgW3.vocab_size := fun _ _ => ⟨0, by decide⟩

def cfgW10 : GPTConfig := ⟨2, 1, 1, 1, 1⟩

def lnW10 : LayerNorm cfgW10.n_embd := ⟨fun _ => 1, fun _ => 0⟩

def cProjW10 : LinearParams cfgW10.n_embd cfgW10.n_embd := ⟨fun _ _ => 1, fun _ => 0⟩

def cAttnW10a : LinearParams cfgW10.n_embd (3 * cfgW10.n_embd) := ⟨fun _ _ => 1, fun _ => 0⟩

def cAttnW10b : LinearParams cfgW10.n_embd (3 * cfgW10.n_embd) := ⟨fun _ _ => 2, fun _ => 0⟩

def mlpW10 : MLP cfgW10 := ⟨⟨fun _ _ => 1, fun _ => 0⟩, ⟨fun _ _ => 1, fun _ => 0⟩⟩

def embW10 : Fin cfgW10.vocab_size → Fin cfgW10.n_embd → ℚ := fun _ _ => 0

def posW10 : Fin cfgW10.block_size → Fin cfgW10.n_embd → ℚ := fun _ _ => 0

def headW10 : LinearParams cfgW10.n_embd cfgW10.vocab_size := ⟨fun _ _ => 1, fun _ => 0⟩

def pW10a : GPT cfgW10 :=
  ⟨embW10, posW10, [⟨lnW10, ⟨cAttnW10a, cProjW10⟩, lnW10, mlpW10⟩], lnW10, headW10⟩

def pW10b : GPT cfgW10 :=
  ⟨embW10, posW10, [⟨lnW10, ⟨cAttnW10b, cProjW10⟩, lnW10, mlpW10⟩], lnW10, headW10⟩

def idxW10 : Fin 1 → Fin 1 → Fin cfgW10.vocab_size := fun _ _ => ⟨0, by decide⟩

lemma csa_forward_apply (pr : Prims) {cfg : GPTConfig} (sa : CausalSelfAttention cfg)
    {B T : ℕ} (x : BTTensor B T cfg.n_embd) (b : Fin B) (t : Fin T) :
    CausalSelfAttention.forward pr sa x b t = linearFwd sa.c_proj (x b t) := rfl

lemma block_forward_apply (pr : Prims) {cfg : GPTConfig} (blk : Block cfg)
    {B T : ℕ} (x : BTTensor B T cfg.n_embd) (b : Fin B) (t : Fin T) :
    Block.forward pr blk x b t = blockPoint pr blk (x b t) := rfl

lemma foldl_blocks_pointwise (pr : Prims) {cfg : GPTConfig} (bs : List (Block cfg))
    {B T : ℕ} (x x2 : BTTensor B T cfg.n_embd) (b : Fin B) (t : Fin T)
    (h : x b t = x2 b t) :
    (bs.foldl (fun acc blk => Block.forward pr blk acc) x) b t =
      (bs.foldl (fun acc blk => Block.forward pr blk acc) x2) b t := by
  induction bs generalizing x x2 with
  | nil => exact h
  | cons blk bs ih =>
    simp only [List.foldl_cons]
    exact ih _ _ (by rw [block_forward_apply, block_forward_apply, h])

lemma sum_flattenBT {B T : ℕ} (g : Fin B → Fin T → ℚ) :
    ∑ i, flattenBT g i = ∑ b, ∑ t, g b t := by
  rcases Nat.eq_zero_or_pos T with h0 | h0
  · subst h0
    haveI : IsEmpty (Fin (B * 0)) := ⟨fun i => absurd i.isLt (by omega)⟩
    simp
  · have h1 : ∑ i, flattenBT g i = ∑ bt : Fin B × Fin T, g bt.1 bt.2 := by
      rw [← Equiv.sum_comp (finPair B T h0).symm (fun bt : Fin B × Fin T => g bt.1 bt.2)]
      exact Finset.sum_congr rfl (fun i _ => rfl)
    rw [h1, Fintype.sum_prod_type]

lemma forwardCore_logits {cfg : GPTConfig} (pr : Prims) (g : GPT cfg) {B T : ℕ}
    (hT : T < cfg.block_size) (idx : Fin B → Fin T → Fin cfg.vocab_size)
    (targets : Option (Fin B → Fin T → Fin cfg.vocab_size)) (b : Fin B) (t : Fin T) :
    (GPT.forwardCore pr g hT idx targets).1 b t =
      linearFwd g.lm_head (LayerNorm.forward pr g.ln_f
        ((g.h.foldl (fun acc blk => Block.forward pr blk acc)
          (fun b2 t2 e => g.wpe ⟨t2.val, Nat.lt_trans t2.isLt hT⟩ e + g.wte (idx b2 t2) e))
          b t)) := rfl

lemma forwardCore_loss {cfg : GPTConfig} (pr : Prims) (g : GPT cfg) {B T : ℕ}
    (hT : T < cfg.block_size) (idx : Fin B → Fin T → Fin cfg.vocab_size)
    (targets : Option (Fin B → Fin T → Fin cfg.vocab_size)) :
    (GPT.forwardCore pr g hT idx targets).2 = Option.map
      (fun tg => cross_entropy pr (flattenBT ((GPT.forwardCore pr g hT idx targets).1))
        (flattenBT tg)) targets := rfl

lemma setParam_self (st : Store) (k2 : String) (v : STensor) :
    setParam st k2 v k2 = v := by simp [setParam]

lemma setParam_other (st : Store) (k2 : String) (v : STensor) (k : String) (hk : k ≠ k2) :
    setParam st k2 v k = st k := by simp [setParam, hk]

lemma expectedCopy_shape (sd_hf st : Store) (k : String) :
    (expectedCopy sd_hf st k).shape = (st k).shape := by
  unfold expectedCopy copyInto
  split <;> rfl

lemma shapeOk_congr (sd_hf st st2 : Store) (k : String)
    (h : (st2 k).shape = (st k).shape) : shapeOk sd_hf st2 k = shapeOk sd_hf st k := by
  unfold shapeOk
  rw [h]

lemma expectedCopy_congr (sd_hf st st2 : Store) (k : String)
    (h : (st2 k).shape = (st k).shape) : expectedCopy sd_hf st2 k = expectedCopy sd_hf st k := by
  unfold expectedCopy copyInto
  rw [h]

lemma checkAndCopy_eq_some (sd_hf st : Store) (k : String)
    (h : shapeOk sd_hf st k = true) :
    checkAndCopy sd_hf k st = some (setParam st k (expectedCopy sd_hf st k)) := by
  by_cases htr : isTransposedKey k = true
  · have h2 : (sd_hf k).shape.reverse = (st k).shape := by
      unfold shapeOk at h
      rw [if_pos htr, decide_eq_true_eq] at h
      exact h
    simp [checkAndCopy, expectedCopy, htr, h2]
  · have h2 : (sd_hf k).shape = (st k).shape := by
      unfold shapeOk at h
      rw [if_neg htr, decide_eq_true_eq] at h
      exact h
    simp [checkAndCopy, expectedCopy, htr, h2]

lemma copyLoop_untouched (sd_hf : Store) (ks : List String) (st : Store)
    (k : String) (hk : k ∉ ks) : (copyLoop sd_hf ks st).1 k = st k := by
  induction ks generalizing st with
  | nil => rfl
  | cons k2 ks ih =>
    have hk2 : k ≠ k2 := by
      intro h
      exact hk (h ▸ List.mem_cons_self k2 ks)
    have hks : k ∉ ks := fun h => hk (List.mem_cons_of_mem _ h)
    simp only [copyLoop]
    cases hc : checkAndCopy sd_hf k2 st with
    | none => rfl
    | some st2 =>
      have hother : st2 k = st k := by
        unfold checkAndCopy at hc
        split at hc
        · split at hc
          · rw [← Option.some.inj hc]
            exact setParam_other st k2 _ k hk2
          · exact absurd hc (by simp)
        · split at hc
          · rw [← Option.some.inj hc]
            exact setParam_other st k2 _ k hk2
          · exact absurd hc (by simp)
      rw [ih st2 hks, hother]

/-- Claim C6 (transpose convention): when every foreign key passes its shape
verification (reversed shape for the keys ending in one of the four
transposed suffixes, exact equality otherwise), the copy loop succeeds and
stores for each key the transpose of the foreign tensor when the key is a
transposed one and the foreign tensor itself otherwise, leaving every other
parameter untouched. -/
theorem C6_transpose_convention (sd_hf : Store) (ks : List String) (st : Store)
    (hok : ∀ k ∈ ks, shapeOk sd_hf st k = true) :
    (copyLoop sd_hf ks st).2 = none ∧
    (∀ k ∈ ks, (copyLoop sd_hf ks st).1 k = expectedCopy sd_hf st k) ∧
    (∀ k, k ∉ ks → (copyLoop sd_hf ks st).1 k = st k) := by
  induction ks generalizing st with
  | nil => exact ⟨rfl, by simp, fun k _ => rfl⟩
  | cons k2 ks ih =>
    have hk2 := hok k2 (List.mem_cons_self k2 ks)
    have hcc := checkAndCopy_eq_some sd_hf st k2 hk2
    set st2 := setParam st k2 (expectedCopy sd_hf st k2) with hst2
    have hshape : ∀ k, (st2 k).shape = (st k).shape := by
      intro k
      by_cases hk : k = k2
      · subst hk
        rw [hst2, setParam_self, expectedCopy_shape]
      · rw [hst2, setParam_other st k2 _ k hk]
    have hok2 : ∀ k ∈ ks, shapeOk sd_hf st2 k = true := by
      intro k hk
      rw [shapeOk_congr sd_hf st st2 k (hshape k)]
      exact hok k (List.mem_cons_of_mem _ hk)
    obtain ⟨ih1, ih2, ih3⟩ := ih st2 hok2
    have hloop : copyLoop sd_hf (k2 :: ks) st = copyLoop sd_hf ks st2 := by
      simp only [copyLoop, hcc]
    refine ⟨by rw [hloop]; exact ih1, ?_, ?_⟩
    · intro k hk
      rw [hloop]
      rcases List.mem_cons.mp hk with h | h
      · subst h
        by_cases hmem : k ∈ ks
        · rw [ih2 k hmem, expectedCopy_congr sd_hf st st2 k (hshape k)]
        · rw [ih3 k hmem, hst2, setParam_self]
      · rw [ih2 k h, expectedCopy_congr sd_hf st st2 k (hshape k)]
    · intro k hk
      have hk2ne : k ≠ k2 := by
        intro h
        exact hk (h ▸ List.mem_cons_self k2 ks)
      have hkks : k ∉ ks := fun h => hk (List.mem_cons_of_mem _ h)
      rw [hloop, ih3 k hkks, hst2, setParam_other st k2 _ k hk2ne]

/-- Claim C2 as amended: a key-count mismatch fails before any tensor is
copied, returning the untouched local state dict together with the
count-mismatch message; and when the copy loop fails at some parameter, every
parameter outside the processed key list is untouched (parameters earlier in
iteration order may already have been overwritten, as the counterexample
shows). -/
theorem C2_import_atomicity_amended :
    (∀ (localKeys hfKeys : List String) (sd sd_hf : Store),
      (filterHfKeys hfKeys).length ≠ (filterLocalKeys localKeys).length →
      from_pretrained_copy localKeys hfKeys sd sd_hf =
        (sd, some (countMismatchMsg (filterHfKeys hfKeys).length
          (filterLocalKeys localKeys).length))) ∧
    (∀ (sd_hf : Store) (ks : List String) (st : Store) (e : String),
      (copyLoop sd_hf ks st).2 = some e →
      ∀ k, k ∉ ks → (copyLoop sd_hf ks st).1 k = st k) := by
  constructor
  · intro lk hk sd sd_hf h
    unfold from_pretrained_copy
    rw [if_neg h]
  · intro sd_hf ks st e _ k hk
    exact copyLoop_untouched sd_hf ks st k hk

lemma block_forward_congr (pr : Prims) {cfg : GPTConfig} (b b2 : Block cfg)
    (h1 : b2.ln_1 = b.ln_1) (h2 : b2.ln_2 = b.ln_2) (hm : b2.mlp = b.mlp)
    (hp : b2.attn.c_proj = b.attn.c_proj) {B T : ℕ} (x : BTTensor B T cfg.n_embd) :
    Block.forward pr b2 x = Block.forward pr b x := by
  funext bb tt
  rw [block_forward_apply, block_forward_apply]
  simp only [blockPoint, mlpPoint, h1, h2, hm, hp]

lemma foldl_blocks_congr (pr : Prims) {cfg : GPTConfig} {bs bs2 : List (Block cfg)}
    (hrel : List.Forall₂ (fun b b2 : Block cfg =>
      b2.ln_1 = b.ln_1 ∧ b2.ln_2 = b.ln_2 ∧ b2.mlp = b.mlp ∧ b2.attn.c_proj = b.attn.c_proj)
      bs bs2)
    {B T : ℕ} (x : BTTensor B T cfg.n_embd) :
    bs2.foldl (fun acc blk => Block.forward pr blk acc) x =
      bs.foldl (fun acc blk => Block.forward pr blk acc) x := by
  induction hrel generalizing x with
  | nil => rfl
  | cons hbb hrest ih =>
    simp only [List.foldl_cons]
    rw [block_forward_congr pr _ _ hbb.1 hbb.2.1 hbb.2.2.1 hbb.2.2.2 x]
    exact ih _

/-- Claim C10 (implicit, a consequence of the line 35 slip): the attention
forward returns c_proj applied position-wise to its input, so two models
whose parameters agree everywhere except in the c_attn projections produce
identical logits and identical loss on every input. -/
theorem C10_cattn_independence (pr : Prims) (cfg : GPTConfig) :
    (∀ (sa : CausalSelfAttention cfg) (B T : ℕ) (x : BTTensor B T cfg.n_embd)
        (b : Fin B) (t : Fin T),
      CausalSelfAttention.forward pr sa x b t = linearFwd sa.c_proj (x b t)) ∧
    (∀ (p p2 : GPT cfg), SameButCAttn p p2 → ∀ (B T : ℕ) (hT : T < cfg.block_size)
        (idx : Fin B → Fin T → Fin cfg.vocab_size)
        (targets : Option (Fin B → Fin T → Fin cfg.vocab_size)),
      GPT.forwardCore pr p hT idx targets = GPT.forwardCore pr p2 hT idx targets) := by
  refine ⟨fun sa B T x b t => rfl, ?_⟩
  rintro p p2 ⟨h1, h2, h3, h4, h5⟩ B T hT idx targets
  have hlog : (GPT.forwardCore pr p hT idx targets).1 =
      (GPT.forwardCore pr p2 hT idx targets).1 := by
    funext b t
    rw [forwardCore_logits, forwardCore_logits, h1, h2, h3, h4,
      foldl_blocks_congr pr h5]
  have hloss : (GPT.forwardCore pr p hT idx targets).2 =
      (GPT.forwardCore pr p2 hT idx targets).2 := by
    rw [forwardCore_loss, forwardCore_loss, hlog]
  exact Prod.ext hlog hloss

/-- Claim C3 (causality): two token-id inputs that agree at all positions up
to t produce, for identical parameters and primitives, identical logits at
every position up to t.  With the projection slip of line 35 the network is
in fact position-wise, so no position's logits depend on any other position's
token. -/
theorem C3_causality (pr : Prims) {cfg : GPTConfig} (g : GPT cfg) {B T : ℕ}
    (hT : T < cfg.block_size) (t : ℕ)
    (idx idx2 : Fin B → Fin T → Fin cfg.vocab_size)
    (hagree : ∀ (b : Fin B) (i : Fin T), i.val ≤ t → idx b i = idx2 b i) :
    ∀ (b : Fin B) (i : Fin T), i.val ≤ t →
      (GPT.forwardCore pr g hT idx none).1 b i =
        (GPT.forwardCore pr g hT idx2 none).1 b i := by
  intro b i hi
  have hfold := foldl_blocks_pointwise pr g.h
    (fun b2 t2 e => g.wpe ⟨t2.val, Nat.lt_trans t2.isLt hT⟩ e + g.wte (idx b2 t2) e)
    (fun b2 t2 e => g.wpe ⟨t2.val, Nat.lt_trans t2.isLt hT⟩ e + g.wte (idx2 b2 t2) e)
    b i (by funext e; simp only [hagree b i hi])
  rw [forwardCore_logits, forwardCore_logits, hfold]

/-- Claim C5 (capacity precondition): GPT.forward fails with the assertion
message, reporting both the requested length T and block_size, exactly when
block_size ≤ T, and succeeds for every T < block_size. -/
theorem C5_capacity (pr : Prims) {cfg : GPTConfig} (g : GPT cfg) {B T : ℕ}
    (idx : Fin B → Fin T → Fin cfg.vocab_size)
    (targets : Option (Fin B → Fin T → Fin cfg.vocab_size)) :
    (cfg.block_size ≤ T →
      GPT.forward pr g idx targets = .error ("Cannot forward sequence of length " ++
        toString T ++ ", block size is only " ++ toString cfg.block_size)) ∧
    (T < cfg.block_size → ∃ r, GPT.forward pr g idx targets = .ok r) := by
  constructor
  · intro h
    unfold GPT.forward
    rw [dif_neg (by omega)]
  · intro h
    refine ⟨GPT.forwardCore pr g h idx targets, ?_⟩
    unfold GPT.forward
    rw [dif_pos h]

/-- Claim C8 (forward result): the loss is present iff target ids were
supplied, and when present it equals the mean over all B * T positions of the
per-position cross entropy of the logits against the targets, i.e. the mean
cross entropy of the (B*T, vocab_size)-flattened logits against the flattened
targets.  The logits have shape (B, T, vocab_size) by the type of
GPT.forwardCore. -/
theorem C8_forward_result (pr : Prims) {cfg : GPTConfig} (g : GPT cfg) {B T : ℕ}
    (hT : T < cfg.block_size) (idx : Fin B → Fin T → Fin cfg.vocab_size) :
    (GPT.forwardCore pr g hT idx none).2 = none ∧
    (∀ tgt : Fin B → Fin T → Fin cfg.vocab_size,
      (GPT.forwardCore pr g hT idx (some tgt)).2 =
        some ((∑ b, ∑ t2, crossEntropy1 pr
          ((GPT.forwardCore pr g hT idx (some tgt)).1 b t2) (tgt b t2)) /
          ((B : ℚ) * (T : ℚ)))) := by
  refine ⟨rfl, fun tgt => ?_⟩
  rw [forwardCore_loss]
  simp only [Option.map_some']
  congr 1
  unfold cross_entropy
  have hnum : (∑ i, crossEntropy1 pr
      (flattenBT ((GPT.forwardCore pr g hT idx (some tgt)).1) i) (flattenBT tgt i)) =
      ∑ b, ∑ t2, crossEntropy1 pr ((GPT.forwardCore pr g hT idx (some tgt)).1 b t2)
        (tgt b t2) := by
    rw [← sum_flattenBT (fun b t2 => crossEntropy1 pr
      ((GPT.forwardCore pr g hT idx (some tgt)).1 b t2) (tgt b t2))]
    exact Finset.sum_congr rfl (fun i _ => rfl)
  rw [hnum, Nat.cast_mul]

/-- Claim C4 (weight tying): after GPT.__init__, the wte reference and the
lm_head reference name the same heap tensor, and an in-place update performed
through either reference is visible through the other — shared ownership,
not two synchronized copies. -/
theorem C4_weight_tying :
    gptInitRefs.wteWeight = gptInitRefs.lmHeadWeight ∧
    ∀ (α : Type) (heap : ℕ → α) (f : α → α),
      wteView gptInitRefs (updateAt heap gptInitRefs.lmHeadWeight f) =
        f (wteView gptInitRefs heap) ∧
      lmHeadView gptInitRefs (updateAt heap gptInitRefs.wteWeight f) =
        f (lmHeadView gptInitRefs heap) := by
  refine ⟨rfl, fun α heap f => ⟨?_, ?_⟩⟩ <;>
    simp [wteView, lmHeadView, updateAt, gptInitRefs, tieWeights, gptAllocRefs]

/-- Claim C7 (initialization policy): for every module the model applies
_init_weights to, the action taken equals the policy of spec §4.5: linear
weights are N(0, 0.02) except the attention output projection and the
feed-forward down-projection, which get std 0.02 * (2 * n_layer) ^ (-1/2);
linear biases are zeroed; embedding tables are N(0, 0.02). -/
theorem C7_init_policy (c : GPTConfig) (m : ModuleKind) (hm : m ∈ gptModules c) :
    init_weights c m = specInitAction c m := by
  cases m with
  | linear r => cases r <;> simp [init_weights, specInitAction, hasScaleInitAttr]
  | embeddingTable => rfl
  | layerNormModule => rfl

/-- Claim C9 (pre-norm residual composition): Block.forward computes
x1 = x + attn(ln_1(x)) and returns x1 + mlp(ln_2(x1)) — each sub-layer is
applied to the normalized input, never to the residual sum, and the output
shape equals the input shape by the type of Block.forward. -/
theorem C9_block_pre_norm (pr : Prims) {cfg : GPTConfig} (blk : Block cfg) {B T : ℕ}
    (x : BTTensor B T cfg.n_embd) :
    ∃ x1 : BTTensor B T cfg.n_embd,
      (∀ b t e, x1 b t e = x b t e + CausalSelfAttention.forward pr blk.attn
        (fun b2 t2 => LayerNorm.forward pr blk.ln_1 (x b2 t2)) b t e) ∧
      (∀ b t e, Block.forward pr blk x b t e = x1 b t e + MLP.forward pr blk.mlp
        (fun b2 t2 => LayerNorm.forward pr blk.ln_2 (x1 b2 t2)) b t e) :=
  ⟨fun b t e => x b t e + CausalSelfAttention.forward pr blk.attn
      (fun b2 t2 => LayerNorm.forward pr blk.ln_1 (x b2 t2)) b t e,
    fun b t e => rfl, fun b t e => rfl⟩

/-- Claim C1 (code bug): the claim says CausalSelfAttention.forward returns the
concatenated per-head attention outputs passed through c_proj.  The source
(line 35) instead applies c_proj to the input x and discards the attention
output: the first conjunct proves the forward pass equals the projection of
the input for every input and every choice of parameters and scalar
primitives; the remaining conjuncts evaluate the code and the spec-intended
forward at a concrete failing input where they give 1 and 2 respectively. -/
theorem C1_projection_divergence :
    (∀ (pr : Prims) (cfg : GPTConfig) (sa : CausalSelfAttention cfg) (B T : ℕ)
        (x : BTTensor B T cfg.n_embd) (b : Fin B) (t : Fin T),
      CausalSelfAttention.forward pr sa x b t = linearFwd sa.c_proj (x b t)) ∧
    CausalSelfAttention.forward prW1 csaW1 xW1 ⟨0, by decide⟩ ⟨0, by decide⟩
      (⟨0, by decide⟩ : Fin cfgW1.n_embd) = 1 ∧
    CausalSelfAttention.specForward prW1 csaW1 xW1 ⟨0, by decide⟩ ⟨0, by decide⟩
      (⟨0, by decide⟩ : Fin cfgW1.n_embd) = 2 := by
  refine ⟨fun pr cfg sa B T x b t => rfl, ?_, ?_⟩ <;>
    simp [CausalSelfAttention.forward, CausalSelfAttention.specForward, linearFwd,
      scaled_dot_product_attention, prW1, csaW1, xW1, cfgW1, GPTConfig.n_embd,
      qSlice, kSlice, vSlice, mergeHead, headOf, dimOf, Fin.sum_univ_succ]

/-- Claim C2, counterexample: a two-parameter import in which the first
parameter passes its shape check and the second fails.  The run reports the
failure at the second key, yet the first parameter has already been
overwritten (its tensor is now the foreign value 5, not the original 0), so a
failed import does not always leave the model unmodified. -/
theorem C2_import_atomicity_counterexample :
    (from_pretrained_copy c2keys c2keys c2sd c2hf).2 = some keyWB ∧
    (from_pretrained_copy c2keys c2keys c2sd c2hf).1 keyWA = ⟨[1], [5]⟩ ∧
    c2sd keyWA = ⟨[1], [0]⟩ := by decide

/-- Witness for the amended C2: a concrete count mismatch leaves the store
untouched, and the concrete failing run leaves keys outside the key list
untouched. -/
theorem C2_import_atomicity_amended_witness :
    from_pretrained_copy [keyWA] [] c2sd c2hf =
      (c2sd, some (countMismatchMsg (filterHfKeys []).length
        (filterLocalKeys [keyWA]).length)) ∧
    (copyLoop c2hf c2keys c2sd).1 keyWC = c2sd keyWC :=
  ⟨C2_import_atomicity_amended.1 [keyWA] [] c2sd c2hf (by decide),
   C2_import_atomicity_amended.2 c2hf c2keys c2sd keyWB (by decide) keyWC (by decide)⟩

/-- Witness for C6: a concrete import of one transposed and one ordinary
parameter succeeds and stores the expected tensors. -/
theorem C6_transpose_convention_witness :
    (copyLoop c6hf c6keys c6sd).2 = none ∧
    (copyLoop c6hf c6keys c6sd).1 keyTA = expectedCopy c6hf c6sd keyTA ∧
    (copyLoop c6hf c6keys c6sd).1 keyWA = expectedCopy c6hf c6sd keyWA :=
  ⟨(C6_transpose_convention c6hf c6keys c6sd (by decide)).1,
   (C6_transpose_convention c6hf c6keys c6sd (by decide)).2.1 keyTA (by decide),
   (C6_transpose_convention c6hf c6keys c6sd (by decide)).2.1 keyWA (by decide)⟩

theorem cfgW3_cap : 2 < cfgW3.block_size := by decide

/-- Witness for C3: two concrete inputs of length 2 agreeing at position 0
give equal logits at position 0. -/
theorem C3_causality_witness :
    (GPT.forwardCore prW1 gW3 cfgW3_cap idxW3a none).1 0 0 =
      (GPT.forwardCore prW1 gW3 cfgW3_cap idxW3b none).1 0 0 :=
  C3_causality prW1 gW3 cfgW3_cap 0 idxW3a idxW3b (by decide) 0 0 (by decide)

/-- Witness for C5: a length-5 input against block size 3 fails with the
assertion message; a length-1 input succeeds. -/
theorem C5_capacity_witness :
    GPT.forward prW1 gW5 idxW5long none =
      .error ("Cannot forward sequence of length " ++ toString (5 : ℕ) ++
        ", block size is only " ++ toString cfgW5.block_size) ∧
    ∃ r, GPT.forward prW1 gW5 idxW5short none = .ok r :=
  ⟨(C5_capacity prW1 gW5 idxW5long none).1 (by decide),
   (C5_capacity prW1 gW5 idxW5short none).2 (by decide)⟩

/-- Witness for C7 at the attention output projection of a GPT-2-small-sized
configuration. -/
theorem C7_init_policy_witness :
    init_weights cfgW7 (ModuleKind.linear LinearRole.attn_c_proj) =
      specInitAction cfgW7 (ModuleKind.linear LinearRole.attn_c_proj) :=
  C7_init_policy cfgW7 (ModuleKind.linear LinearRole.attn_c_proj) (by decide)

/-- Witness for C8 on a concrete (B, T) = (1, 2) model. -/
theorem C8_forward_result_witness :
    (GPT.forwardCore prW1 gW3 cfgW3_cap idxW3a none).2 = none ∧
    (GPT.forwardCore prW1 gW3 cfgW3_cap idxW3a (some tgtW8)).2 =
      some ((∑ b, ∑ t2, crossEntropy1 prW1
        ((GPT.forwardCore prW1 gW3 cfgW3_cap idxW3a (some tgtW8)).1 b t2) (tgtW8 b t2)) /
        (((1 : ℕ) : ℚ) * ((2 : ℕ) : ℚ))) :=
  ⟨(C8_forward_result prW1 gW3 cfgW3_cap idxW3a).1,
   (C8_forward_result prW1 gW3 cfgW3_cap idxW3a).2 tgtW8⟩

theorem cfgW10_cap : 1 < cfgW10.block_size := by decide

/-- Witness for C10: two concrete one-block models differing only in the
c_attn weight produce the same forward result. -/
theorem C10_cattn_independence_witness :
    GPT.forwardCore prW1 pW10a cfgW10_cap idxW10 none =
      GPT.forwardCore prW1 pW10b cfgW10_cap idxW10 none :=
  (C10_cattn_independence prW1 cfgW10).2 pW10a pW10b
    ⟨rfl, rfl, rfl, rfl, List.Forall₂.cons ⟨rfl, rfl, rfl, rfl⟩ List.Forall₂.nil⟩
    1 1 cfgW10_cap idxW10 none

end TrainGPT2
